import Mathlib

/-!
# EcommercePro — verification of the storage layer and client total computations

Shallow embedding of the in-memory storage backend (`server/storage.ts`,
class `MemStorage`), the relevant Express route handlers
(`server/routes.ts`), and the client-side price arithmetic of the checkout
and shopping-cart pages (`client/src/pages/checkout.tsx`,
`ShoppingCartPage`).

Modelling conventions:
* A JavaScript `Map<number, T>` is a `List (Nat × T)` in insertion order;
  `Map.set` replaces in place when the key exists and appends otherwise,
  `Map.delete` filters and reports whether the key was present, and
  `Array.from(map.values())` is the list of second components.
* `Date` fields (`createdAt`, and coupon `expiresAt`) are omitted: no
  verified property depends on them.
* Optional / nullable JS fields are `Option`; JS falsiness of `""`, `0`,
  `null` and `undefined` is modelled explicitly where the source uses
  `||` or truthiness tests.
* Client-side JS `number` arithmetic on prices is modelled exactly over
  `ℚ` (`parseFloat` of a decimal numeral string yields its rational
  value); IEEE-754 rounding is not modelled.  `Number.prototype.toFixed(2)`
  is modelled as rounding half-up to two decimal places.
-/

/-- JS `Map.get` on the association-list model of a `Map<number, T>`. -/
def mapGet {α : Type} (m : List (Nat × α)) (k : Nat) : Option α :=
  (m.find? (fun p => p.1 = k)).map (fun p => p.2)

/-- JS `Map.set`: replace in place if the key is present, append otherwise. -/
def mapSet {α : Type} (m : List (Nat × α)) (k : Nat) (v : α) : List (Nat × α) :=
  if m.any (fun p => p.1 = k) then
    m.map (fun p => if p.1 = k then (k, v) else p)
  else
    m ++ [(k, v)]

/-- JS `Map.delete`: returns whether the key was present, and the remaining map. -/
def mapDelete {α : Type} (m : List (Nat × α)) (k : Nat) : Bool × List (Nat × α) :=
  (m.any (fun p => p.1 = k), m.filter (fun p => p.1 ≠ k))

/-- JS `Array.from(map.values())`. -/
def mapValues {α : Type} (m : List (Nat × α)) : List α :=
  m.map (fun p => p.2)

/-- JS `x || null` for an optional string field: `undefined`, `null` and the
empty string all collapse to `null`. -/
def jsOrNullStr (s : Option String) : Option String :=
  match s with
  | none => none
  | some str => if str = "" then none else some str

/-- JS `x || null` for an optional numeric field: `0` is falsy. -/
def jsOrNullNat (n : Option Nat) : Option Nat :=
  match n with
  | none => none
  | some k => if k = 0 then none else some k

/-! ## Data model (`@shared/schema` as used by `MemStorage`) -/

structure User where
  id : Nat
  username : String
  email : String
  password : String
  firstName : String
  lastName : String
  isAdmin : Bool
  deriving Repr, DecidableEq

structure InsertUser where
  username : String
  email : String
  password : String
  firstName : String
  lastName : String
  isAdmin : Option Bool := none
  deriving Repr, DecidableEq

structure Category where
  id : Nat
  name : String
  description : Option String
  deriving Repr, DecidableEq

structure InsertCategory where
  name : String
  description : Option String := none
  deriving Repr, DecidableEq

structure Product where
  id : Nat
  name : String
  description : String
  price : String
  salePrice : Option String
  sku : String
  categoryId : Option Nat
  stock : Int
  imageUrl : Option String
  isActive : Bool
  deriving Repr, DecidableEq

structure InsertProduct where
  name : String
  description : String
  price : String
  sku : String
  salePrice : Option String := none
  categoryId : Option Nat := none
  stock : Option Int := none
  imageUrl : Option String := none
  isActive : Option Bool := none
  deriving Repr, DecidableEq

structure Review where
  id : Nat
  productId : Nat
  userId : Nat
  rating : Int
  comment : String
  deriving Repr, DecidableEq

structure InsertReview where
  productId : Nat
  userId : Nat
  rating : Int
  comment : String
  deriving Repr, DecidableEq

structure Order where
  id : Nat
  userId : Nat
  total : String
  status : String
  discount : String
  couponCode : Option String
  shippingAddress : String
  deriving Repr, DecidableEq

structure InsertOrder where
  userId : Nat
  total : String
  status : Option String := none
  discount : Option String := none
  couponCode : Option String := none
  shippingAddress : String
  deriving Repr, DecidableEq

/-- An order item.  The `POST /api/orders` handler passes `order._id` as the
`orderId`, which is `undefined` on a `MemStorage` order (whose key is `id`),
so the field is modelled as optional. -/
structure OrderItem where
  id : Nat
  orderId : Option Nat
  productId : Nat
  quantity : Int
  price : String
  deriving Repr, DecidableEq

structure CartItem where
  id : Nat
  userId : Nat
  productId : Nat
  quantity : Int
  deriving Repr, DecidableEq

structure InsertCartItem where
  userId : Nat
  productId : Nat
  quantity : Int
  deriving Repr, DecidableEq

structure WishlistItem where
  id : Nat
  userId : Nat
  productId : Nat
  deriving Repr, DecidableEq

structure InsertWishlistItem where
  userId : Nat
  productId : Nat
  deriving Repr, DecidableEq

structure Coupon where
  id : Nat
  code : String
  description : String
  discountType : String
  discountValue : String
  minOrderAmount : Option String
  maxDiscountAmount : Option String
  isActive : Bool
  deriving Repr, DecidableEq

structure InsertCoupon where
  code : String
  description : String
  discountType : String
  discountValue : String
  minOrderAmount : Option String := none
  maxDiscountAmount : Option String := none
  isActive : Option Bool := none
  deriving Repr, DecidableEq

structure Address where
  id : Nat
  userId : Nat
  street : String
  city : String
  state : String
  zipCode : String
  isDefault : Bool
  deriving Repr, DecidableEq

structure InsertAddress where
  userId : Nat
  street : String
  city : String
  state : String
  zipCode : String
  isDefault : Option Bool := none
  deriving Repr, DecidableEq

/-! ## `MemStorage` state -/

structure MemState where
  users : List (Nat × User)
  categories : List (Nat × Category)
  products : List (Nat × Product)
  reviews : List (Nat × Review)
  orders : List (Nat × Order)
  orderItems : List (Nat × OrderItem)
  cartItems : List (Nat × CartItem)
  wishlistItems : List (Nat × WishlistItem)
  coupons : List (Nat × Coupon)
  addresses : List (Nat × Address)
  currentUserId : Nat
  currentCategoryId : Nat
  currentProductId : Nat
  currentReviewId : Nat
  currentOrderId : Nat
  currentOrderItemId : Nat
  currentCartItemId : Nat
  currentWishlistItemId : Nat
  currentCouponId : Nat
  currentAddressId : Nat
  deriving Repr, DecidableEq

/-! ## `Partial<T>` update payloads (`updateX(id, updates)` routes pass
`req.body`; a field present in the payload overrides the stored field). -/

structure PartialUser where
  id : Option Nat := none
  username : Option String := none
  email : Option String := none
  password : Option String := none
  firstName : Option String := none
  lastName : Option String := none
  isAdmin : Option Bool := none
  deriving Repr, DecidableEq

/-- Spread merge `{ ...user, ...updates }`. -/
def applyPartialUser (u : User) (p : PartialUser) : User :=
  { id := p.id.getD u.id
    username := p.username.getD u.username
    email := p.email.getD u.email
    password := p.password.getD u.password
    firstName := p.firstName.getD u.firstName
    lastName := p.lastName.getD u.lastName
    isAdmin := p.isAdmin.getD u.isAdmin }

structure PartialCategory where
  id : Option Nat := none
  name : Option String := none
  description : Option (Option String) := none
  deriving Repr, DecidableEq

/-- Spread merge `{ ...category, ...updates }`. -/
def applyPartialCategory (c : Category) (p : PartialCategory) : Category :=
  { id := p.id.getD c.id
    name := p.name.getD c.name
    description := p.description.getD c.description }

structure PartialProduct where
  id : Option Nat := none
  name : Option String := none
  description : Option String := none
  price : Option String := none
  salePrice : Option (Option String) := none
  sku : Option String := none
  categoryId : Option (Option Nat) := none
  stock : Option Int := none
  imageUrl : Option (Option String) := none
  isActive : Option Bool := none
  deriving Repr, DecidableEq

/-- Spread merge `{ ...product, ...updates }`. -/
def applyPartialProduct (pr : Product) (p : PartialProduct) : Product :=
  { id := p.id.getD pr.id
    name := p.name.getD pr.name
    description := p.description.getD pr.description
    price := p.price.getD pr.price
    salePrice := p.salePrice.getD pr.salePrice
    sku := p.sku.getD pr.sku
    categoryId := p.categoryId.getD pr.categoryId
    stock := p.stock.getD pr.stock
    imageUrl := p.imageUrl.getD pr.imageUrl
    isActive := p.isActive.getD pr.isActive }

structure PartialCoupon where
  id : Option Nat := none
  code : Option String := none
  description : Option String := none
  discountType : Option String := none
  discountValue : Option String := none
  minOrderAmount : Option (Option String) := none
  maxDiscountAmount : Option (Option String) := none
  isActive : Option Bool := none
  deriving Repr, DecidableEq

/-- Spread merge `{ ...coupon, ...updates }`. -/
def applyPartialCoupon (c : Coupon) (p : PartialCoupon) : Coupon :=
  { id := p.id.getD c.id
    code := p.code.getD c.code
    description := p.description.getD c.description
    discountType := p.discountType.getD c.discountType
    discountValue := p.discountValue.getD c.discountValue
    minOrderAmount := p.minOrderAmount.getD c.minOrderAmount
    maxDiscountAmount := p.maxDiscountAmount.getD c.maxDiscountAmount
    isActive := p.isActive.getD c.isActive }

structure PartialAddress where
  id : Option Nat := none
  userId : Option Nat := none
  street : Option String := none
  city : Option String := none
  state : Option String := none
  zipCode : Option String := none
  isDefault : Option Bool := none
  deriving Repr, DecidableEq

/-- Spread merge `{ ...address, ...updates }`. -/
def applyPartialAddress (a : Address) (p : PartialAddress) : Address :=
  { id := p.id.getD a.id
    userId := p.userId.getD a.userId
    street := p.street.getD a.street
    city := p.city.getD a.city
    state := p.state.getD a.state
    zipCode := p.zipCode.getD a.zipCode
    isDefault := p.isDefault.getD a.isDefault }

namespace MemStorage

/-! ## User methods -/

def getUser (s : MemState) (id : Nat) : Option User :=
  mapGet s.users id

def getUserByUsername (s : MemState) (username : String) : Option User :=
  (mapValues s.users).find? (fun u => u.username = username)

def getUserByEmail (s : MemState) (email : String) : Option User :=
  (mapValues s.users).find? (fun u => u.email = email)

def createUser (s : MemState) (iu : InsertUser) : User × MemState :=
  let id := s.currentUserId
  let user : User :=
    { id := id
      username := iu.username
      email := iu.email
      password := iu.password
      firstName := iu.firstName
      lastName := iu.lastName
      isAdmin := iu.isAdmin.getD false }
  (user, { s with users := mapSet s.users id user, currentUserId := id + 1 })

def updateUser (s : MemState) (id : Nat) (updates : PartialUser) :
    Option User × MemState :=
  match mapGet s.users id with
  | none => (none, s)
  | some user =>
      let updatedUser := applyPartialUser user updates
      (some updatedUser, { s with users := mapSet s.users id updatedUser })

/-! ## Category methods -/

def getCategories (s : MemState) : List Category :=
  mapValues s.categories

def getCategory (s : MemState) (id : Nat) : Option Category :=
  mapGet s.categories id

def createCategory (s : MemState) (ic : InsertCategory) : Category × MemState :=
  let id := s.currentCategoryId
  let category : Category :=
    { id := id
      name := ic.name
      description := jsOrNullStr ic.description }
  (category,
    { s with categories := mapSet s.categories id category,
             currentCategoryId := id + 1 })

def updateCategory (s : MemState) (id : Nat) (updates : PartialCategory) :
    Option Category × MemState :=
  match mapGet s.categories id with
  | none => (none, s)
  | some category =>
      let updatedCategory := applyPartialCategory category updates
      (some updatedCategory,
        { s with categories := mapSet s.categories id updatedCategory })

def deleteCategory (s : MemState) (id : Nat) : Bool × MemState :=
  let d := mapDelete s.categories id
  (d.1, { s with categories := d.2 })

/-! ## Product methods -/

/-- JS `hay.includes(pat)` on strings: `pat` occurs contiguously in `hay`. -/
def containsStr (hay pat : String) : Bool :=
  decide (pat.toList <:+: hay.toList)

/-- Method `getProducts(categoryId?, search?)`: active products, then the optional
category filter, then the optional case-insensitive name/description search.
JS truthiness: `categoryId = 0` and `search = ""` skip their filters. -/
def getProducts (s : MemState) (categoryId : Option Nat) (search : Option String) :
    List Product :=
  let ps := (mapValues s.products).filter (fun p => p.isActive)
  let ps :=
    match categoryId with
    | some c => if c = 0 then ps else ps.filter (fun p => p.categoryId = some c)
    | none => ps
  match search with
  | some q =>
      if q = "" then ps
      else
        let searchLower := q.toLower
        ps.filter (fun p =>
          containsStr p.name.toLower searchLower ||
          containsStr p.description.toLower searchLower)
  | none => ps

def getProduct (s : MemState) (id : Nat) : Option Product :=
  mapGet s.products id

def getProductBySku (s : MemState) (sku : String) : Option Product :=
  (mapValues s.products).find? (fun p => p.sku = sku)

def createProduct (s : MemState) (ip : InsertProduct) : Product × MemState :=
  let id := s.currentProductId
  let product : Product :=
    { id := id
      name := ip.name
      description := ip.description
      price := ip.price
      salePrice := jsOrNullStr ip.salePrice
      sku := ip.sku
      categoryId := jsOrNullNat ip.categoryId
      stock := ip.stock.getD 0
      imageUrl := jsOrNullStr ip.imageUrl
      isActive := ip.isActive.getD true }
  (product,
    { s with products := mapSet s.products id product,
             currentProductId := id + 1 })

def updateProduct (s : MemState) (id : Nat) (updates : PartialProduct) :
    Option Product × MemState :=
  match mapGet s.products id with
  | none => (none, s)
  | some product =>
      let updatedProduct := applyPartialProduct product updates
      (some updatedProduct,
        { s with products := mapSet s.products id updatedProduct })

def deleteProduct (s : MemState) (id : Nat) : Bool × MemState :=
  let d := mapDelete s.products id
  (d.1, { s with products := d.2 })

/-! ## Review methods -/

def getProductReviews (s : MemState) (productId : Nat) : List Review :=
  (mapValues s.reviews).filter (fun r => r.productId = productId)

def createReview (s : MemState) (ir : InsertReview) : Review × MemState :=
  let id := s.currentReviewId
  let review : Review :=
    { id := id
      productId := ir.productId
      userId := ir.userId
      rating := ir.rating
      comment := ir.comment }
  (review,
    { s with reviews := mapSet s.reviews id review,
             currentReviewId := id + 1 })

def deleteReview (s : MemState) (id : Nat) (userId : Nat) : Bool × MemState :=
  match mapGet s.reviews id with
  | none => (false, s)
  | some review =>
      if review.userId ≠ userId then (false, s)
      else
        let d := mapDelete s.reviews id
        (d.1, { s with reviews := d.2 })

/-! ## Order methods -/

def getOrder (s : MemState) (id : Nat) : Option Order :=
  mapGet s.orders id

def createOrder (s : MemState) (io : InsertOrder) : Order × MemState :=
  let id := s.currentOrderId
  let order : Order :=
    { id := id
      userId := io.userId
      total := io.total
      status := (jsOrNullStr io.status).getD "pending"
      discount := (jsOrNullStr io.discount).getD "0.00"
      couponCode := jsOrNullStr io.couponCode
      shippingAddress := io.shippingAddress }
  (order,
    { s with orders := mapSet s.orders id order, currentOrderId := id + 1 })

def updateOrderStatus (s : MemState) (id : Nat) (status : String) :
    Option Order × MemState :=
  match mapGet s.orders id with
  | none => (none, s)
  | some order =>
      let updatedOrder := { order with status := status }
      (some updatedOrder, { s with orders := mapSet s.orders id updatedOrder })

def getOrderItems (s : MemState) (orderId : Nat) : List OrderItem :=
  (mapValues s.orderItems).filter (fun item => item.orderId = some orderId)

/-- The argument type of `createOrderItem`: an `OrderItem` without the `id`
field (TypeScript `Omit`). -/
structure OrderItemInput where
  orderId : Option Nat
  productId : Nat
  quantity : Int
  price : String
  deriving Repr, DecidableEq

def createOrderItem (s : MemState) (item : OrderItemInput) :
    OrderItem × MemState :=
  let id := s.currentOrderItemId
  let orderItem : OrderItem :=
    { id := id
      orderId := item.orderId
      productId := item.productId
      quantity := item.quantity
      price := item.price }
  (orderItem,
    { s with orderItems := mapSet s.orderItems id orderItem,
             currentOrderItemId := id + 1 })

/-! ## Cart methods -/

def getCartItems (s : MemState) (userId : Nat) : List CartItem :=
  (mapValues s.cartItems).filter (fun item => item.userId = userId)

def addToCart (s : MemState) (ic : InsertCartItem) : CartItem × MemState :=
  match (mapValues s.cartItems).find?
      (fun item => item.userId = ic.userId ∧ item.productId = ic.productId) with
  | some existingItem =>
      let updatedItem :=
        { existingItem with quantity := existingItem.quantity + ic.quantity }
      (updatedItem,
        { s with cartItems := mapSet s.cartItems existingItem.id updatedItem })
  | none =>
      let id := s.currentCartItemId
      let cartItem : CartItem :=
        { id := id
          userId := ic.userId
          productId := ic.productId
          quantity := ic.quantity }
      (cartItem,
        { s with cartItems := mapSet s.cartItems id cartItem,
                 currentCartItemId := id + 1 })

def updateCartItem (s : MemState) (id : Nat) (quantity : Int) :
    Option CartItem × MemState :=
  match mapGet s.cartItems id with
  | none => (none, s)
  | some item =>
      let updatedItem := { item with quantity := quantity }
      (some updatedItem,
        { s with cartItems := mapSet s.cartItems id updatedItem })

def removeFromCart (s : MemState) (id : Nat) (userId : Nat) : Bool × MemState :=
  match mapGet s.cartItems id with
  | none => (false, s)
  | some item =>
      if item.userId ≠ userId then (false, s)
      else
        let d := mapDelete s.cartItems id
        (d.1, { s with cartItems := d.2 })

/-- Method `clearCart` collects the entries whose `userId` matches and deletes each;
the net effect is filtering them out. -/
def clearCart (s : MemState) (userId : Nat) : MemState :=
  { s with cartItems := s.cartItems.filter (fun p => ¬ p.2.userId = userId) }

/-! ## Wishlist methods -/

def getWishlistItems (s : MemState) (userId : Nat) : List WishlistItem :=
  (mapValues s.wishlistItems).filter (fun item => item.userId = userId)

def addToWishlist (s : MemState) (iw : InsertWishlistItem) :
    WishlistItem × MemState :=
  let id := s.currentWishlistItemId
  let wishlistItem : WishlistItem :=
    { id := id
      userId := iw.userId
      productId := iw.productId }
  (wishlistItem,
    { s with wishlistItems := mapSet s.wishlistItems id wishlistItem,
             currentWishlistItemId := id + 1 })

def removeFromWishlist (s : MemState) (id : Nat) (userId : Nat) :
    Bool × MemState :=
  match mapGet s.wishlistItems id with
  | none => (false, s)
  | some item =>
      if item.userId ≠ userId then (false, s)
      else
        let d := mapDelete s.wishlistItems id
        (d.1, { s with wishlistItems := d.2 })

/-! ## Coupon methods -/

def getCoupons (s : MemState) : List Coupon :=
  mapValues s.coupons

def getCoupon (s : MemState) (id : Nat) : Option Coupon :=
  mapGet s.coupons id

def getCouponByCode (s : MemState) (code : String) : Option Coupon :=
  (mapValues s.coupons).find? (fun c => c.code = code ∧ c.isActive)

def createCoupon (s : MemState) (ic : InsertCoupon) : Coupon × MemState :=
  let id := s.currentCouponId
  let coupon : Coupon :=
    { id := id
      code := ic.code
      description := ic.description
      discountType := ic.discountType
      discountValue := ic.discountValue
      isActive := ic.isActive.getD true
      minOrderAmount := jsOrNullStr ic.minOrderAmount
      maxDiscountAmount := jsOrNullStr ic.maxDiscountAmount }
  (coupon,
    { s with coupons := mapSet s.coupons id coupon, currentCouponId := id + 1 })

def updateCoupon (s : MemState) (id : Nat) (updates : PartialCoupon) :
    Option Coupon × MemState :=
  match mapGet s.coupons id with
  | none => (none, s)
  | some coupon =>
      let updatedCoupon := applyPartialCoupon coupon updates
      (some updatedCoupon,
        { s with coupons := mapSet s.coupons id updatedCoupon })

def deleteCoupon (s : MemState) (id : Nat) : Bool × MemState :=
  let d := mapDelete s.coupons id
  (d.1, { s with coupons := d.2 })

/-! ## Address methods -/

def getUserAddresses (s : MemState) (userId : Nat) : List Address :=
  (mapValues s.addresses).filter (fun addr => addr.userId = userId)

def getAddress (s : MemState) (id : Nat) : Option Address :=
  mapGet s.addresses id

def createAddress (s : MemState) (ia : InsertAddress) : Address × MemState :=
  let id := s.currentAddressId
  let address : Address :=
    { id := id
      userId := ia.userId
      street := ia.street
      city := ia.city
      state := ia.state
      zipCode := ia.zipCode
      isDefault := ia.isDefault.getD false }
  (address,
    { s with addresses := mapSet s.addresses id address,
             currentAddressId := id + 1 })

def updateAddress (s : MemState) (id : Nat) (updates : PartialAddress) :
    Option Address × MemState :=
  match mapGet s.addresses id with
  | none => (none, s)
  | some address =>
      let updatedAddress := applyPartialAddress address updates
      (some updatedAddress,
        { s with addresses := mapSet s.addresses id updatedAddress })

def deleteAddress (s : MemState) (id : Nat) (userId : Nat) : Bool × MemState :=
  match mapGet s.addresses id with
  | none => (false, s)
  | some address =>
      if address.userId ≠ userId then (false, s)
      else
        let d := mapDelete s.addresses id
        (d.1, { s with addresses := d.2 })

end MemStorage

/-! ## The seeded initial state (`MemStorage` constructor + `seedData`) -/

/-- The state of a freshly constructed `MemStorage`: three categories, three
products, one coupon, one admin user (ids assigned by the incrementing
counters, starting at 1). -/
def seedState : MemState :=
  { users :=
      [(1, { id := 1, username := "admin", email := "admin@shopmaster.com",
             password := "$hashed$password", firstName := "Admin",
             lastName := "User", isAdmin := true })]
    categories :=
      [(1, { id := 1, name := "Electronics",
             description := some "Electronic devices and accessories" }),
       (2, { id := 2, name := "Fashion",
             description := some "Clothing and accessories" }),
       (3, { id := 3, name := "Home & Garden",
             description := some "Home improvement and garden supplies" })]
    products :=
      [(1, { id := 1, name := "Premium Wireless Headphones",
             description := "High-quality sound with noise cancellation technology",
             price := "89.99", salePrice := some "76.49", sku := "WH-001",
             categoryId := some 1, stock := 45,
             imageUrl := some "https://images.unsplash.com/photo-1505740420928-5e560c06d30e?ixlib=rb-4.0.3&w=400&h=300&fit=crop",
             isActive := true }),
       (2, { id := 2, name := "Smart Fitness Watch",
             description := "Track your health and fitness with advanced sensors",
             price := "199.99", salePrice := none, sku := "SW-001",
             categoryId := some 1, stock := 32,
             imageUrl := some "https://images.unsplash.com/photo-1523275335684-37898b6baf30?ixlib=rb-4.0.3&w=400&h=300&fit=crop",
             isActive := true }),
       (3, { id := 3, name := "Professional Laptop",
             description := "High-performance laptop for work and creativity",
             price := "1299.99", salePrice := none, sku := "LP-001",
             categoryId := some 1, stock := 18,
             imageUrl := some "https://images.unsplash.com/photo-1496181133206-80ce9b88a853?ixlib=rb-4.0.3&w=400&h=300&fit=crop",
             isActive := true })]
    reviews := []
    orders := []
    orderItems := []
    cartItems := []
    wishlistItems := []
    coupons :=
      [(1, { id := 1, code := "SAVE15", description := "15% off on all orders",
             discountType := "percentage", discountValue := "15",
             minOrderAmount := some "50", maxDiscountAmount := some "50",
             isActive := true })]
    addresses := []
    currentUserId := 2
    currentCategoryId := 4
    currentProductId := 4
    currentReviewId := 2
    currentOrderId := 1
    currentOrderItemId := 2
    currentCartItemId := 1
    currentWishlistItemId := 1
    currentCouponId := 2
    currentAddressId := 1 }


/-! ## Association-list lemmas -/

theorem mapGet_mapSet_self {α : Type} (m : List (Nat × α)) (k : Nat) (v : α) :
    mapGet (mapSet m k v) k = some v := by
  unfold mapGet mapSet
  by_cases h : m.any (fun p => p.1 = k) = true
  · rw [if_pos h]
    induction m with
    | nil => simp at h
    | cons p rest ih =>
        by_cases hp : p.1 = k
        · simp [hp]
        · rw [List.map_cons, if_neg hp, List.find?_cons_of_neg]
          · apply ih
            simp only [List.any_cons, Bool.or_eq_true, decide_eq_true_eq] at h
            rcases h with h | h
            · exact absurd h hp
            · simpa using h
          · simpa using hp
  · rw [if_neg h]
    rw [List.find?_append]
    have h1 : m.find? (fun p => decide (p.1 = k)) = none := by
      rw [List.find?_eq_none]
      intro x hx hpx
      simp only [List.any_eq_true, decide_eq_true_eq] at h
      exact h ⟨x, hx, by simpa using hpx⟩
    rw [h1]
    simp [List.find?]

theorem mem_mapSet {α : Type} {m : List (Nat × α)} {k : Nat} {v : α}
    {p : Nat × α} (h : p ∈ mapSet m k v) : p.1 = k ∨ p ∈ m := by
  unfold mapSet at h
  by_cases ha : m.any (fun q => q.1 = k) = true
  · rw [if_pos ha] at h
    rcases List.mem_map.1 h with ⟨q, hq, rfl⟩
    by_cases hk : q.1 = k
    · left; simp [hk]
    · right; simpa [hk] using hq
  · rw [if_neg ha] at h
    rcases List.mem_append.1 h with h | h
    · right; exact h
    · left
      simp only [List.mem_singleton] at h
      rw [h]

theorem length_mapSet_replace {α : Type} {m : List (Nat × α)} {k : Nat}
    {v : α} (h : m.any (fun p => p.1 = k) = true) :
    (mapSet m k v).length = m.length := by
  unfold mapSet
  rw [if_pos h, List.length_map]

theorem mapSet_append {α : Type} {m : List (Nat × α)} {k : Nat} {v : α}
    (h : ¬ m.any (fun p => p.1 = k) = true) :
    mapSet m k v = m ++ [(k, v)] := by
  unfold mapSet
  rw [if_neg h]

/-- The per-map half of the fresh-id invariant: every present key is
strictly below the id counter. -/
def mapBounded {α : Type} (m : List (Nat × α)) (c : Nat) : Prop :=
  ∀ p ∈ m, p.1 < c

instance {α : Type} (m : List (Nat × α)) (c : Nat) :
    Decidable (mapBounded m c) :=
  List.decidableBAll _ m

theorem mapBounded_mapSet {α : Type} {m : List (Nat × α)} {c c' k : Nat}
    {v : α} (hm : mapBounded m c) (hk : k < c') (hcc : c ≤ c') :
    mapBounded (mapSet m k v) c' := by
  intro p hp
  rcases mem_mapSet hp with h | h
  · rw [h]; exact hk
  · exact lt_of_lt_of_le (hm p h) hcc

theorem mapBounded_filter {α : Type} {m : List (Nat × α)} {c : Nat}
    (f : Nat × α → Bool) (hm : mapBounded m c) :
    mapBounded (m.filter f) c :=
  fun p hp => hm p (List.mem_of_mem_filter hp)

theorem mem_of_mapGet_eq_some {α : Type} {m : List (Nat × α)} {k : Nat}
    {v : α} (h : mapGet m k = some v) : (k, v) ∈ m := by
  unfold mapGet at h
  cases hf : m.find? (fun p => p.1 = k) with
  | none => rw [hf] at h; simp at h
  | some p =>
      rw [hf] at h
      have hk : p.1 = k := by simpa using List.find?_some hf
      have hv : p.2 = v := by simpa using h
      have : p = (k, v) := Prod.ext hk hv
      rw [← this]
      exact List.mem_of_find?_eq_some hf

/-- Under the fresh-id invariant the counter key is not in use. -/
theorem mapGet_counter_none {α : Type} {m : List (Nat × α)} {c : Nat}
    (hm : mapBounded m c) : mapGet m c = none := by
  cases hg : mapGet m c with
  | none => rfl
  | some v =>
      have := hm _ (mem_of_mapGet_eq_some hg)
      omega

/-! ## Client-side price arithmetic

`checkout.tsx` (CheckoutPage) and the shopping-cart page (ShoppingCartPage)
join each cart item with its product and compute totals from parsed prices.
A joined item is modelled with its prices already parsed to `ℚ`
(`parseFloat` of a decimal numeral string); `salePrice` is `none` when the
stored `salePrice` of the product is `null` or `""` (both falsy under `||`). -/

structure ClientCartItem where
  productId : Nat
  quantity : Int
  price : ℚ
  salePrice : Option ℚ
  deriving Repr, DecidableEq

namespace Checkout

/-- Checkout `subtotal = cartItemsWithProducts.reduce((sum, item) =>
sum + parseFloat(item.product.salePrice || item.product.price) * item.quantity, 0)`. -/
def checkoutSubtotal (items : List ClientCartItem) : ℚ :=
  items.foldl (fun sum item => sum + (item.salePrice.getD item.price) * item.quantity) 0

/-- Checkout `tax = subtotal * 0.08`. -/
def checkoutTax (items : List ClientCartItem) : ℚ :=
  checkoutSubtotal items * 0.08

/-- Checkout `shipping = subtotal > 50 ? 0 : 9.99`. -/
def checkoutShipping (items : List ClientCartItem) : ℚ :=
  if checkoutSubtotal items > 50 then 0 else 9.99

/-- Checkout `total = subtotal + tax + shipping`. -/
def checkoutTotal (items : List ClientCartItem) : ℚ :=
  checkoutSubtotal items + checkoutTax items + checkoutShipping items

/-- JS `Number.prototype.toFixed(2)`: the numeric value of the two-decimal
string, rounding half away from zero (the arguments here are nonnegative). -/
def toFixed2 (x : ℚ) : ℚ :=
  (⌊x * 100 + 1 / 2⌋ : ℚ) / 100

/-- The JSON body the checkout page sends to `POST /api/orders`
(`orderData` in `createOrderMutation`); the `toFixed(2)` decimal strings are
modelled by their numeric values. -/
structure CheckoutOrderData where
  userId : Nat
  status : String
  subtotal : ℚ
  discount : String
  tax : ℚ
  total : ℚ
  shippingAddress : String
  couponCode : Option String
  deriving Repr, DecidableEq

def checkoutOrderData (userId : Nat) (items : List ClientCartItem)
    (shippingAddress : String) : CheckoutOrderData :=
  { userId := userId
    status := "pending"
    subtotal := toFixed2 (checkoutSubtotal items)
    discount := "0.00"
    tax := toFixed2 (checkoutTax items)
    total := toFixed2 (checkoutTotal items)
    shippingAddress := shippingAddress
    couponCode := none }

end Checkout

namespace CartPage

/-- ShoppingCartPage: `subtotal = ... reduce((sum, item) =>
sum + parseFloat(item.product.salePrice || item.product.price || "0")
* (item.quantity || 1), 0)`; a zero quantity is falsy and counts as 1. -/
def cartPageSubtotal (items : List ClientCartItem) : ℚ :=
  items.foldl
    (fun sum item =>
      sum + (item.salePrice.getD item.price) *
        (if item.quantity = 0 then 1 else item.quantity)) 0

/-- Cart page `tax = subtotal * 0.08`. -/
def cartPageTax (items : List ClientCartItem) : ℚ :=
  cartPageSubtotal items * 0.08

/-- Cart page `total = subtotal + tax` — no discount term appears. -/
def cartPageTotal (items : List ClientCartItem) : ℚ :=
  cartPageSubtotal items + cartPageTax items

end CartPage

/-! ## Route handlers (`server/routes.ts`) -/

namespace Routes

/-- Route `DELETE /api/cart/:id`: 401 unless authenticated, then
`removeFromCart(id, req.user.id)`; 404 when it reports failure, 204
otherwise.  Returns the HTTP status and the post-state. -/
def deleteCartHandler (s : MemState) (authUser : Option Nat) (id : Nat) :
    Nat × MemState :=
  match authUser with
  | none => (401, s)
  | some u =>
      let r := MemStorage.removeFromCart s id u
      if r.1 then (204, r.2) else (404, r.2)

/-- The request body of `POST /api/orders` (`{ shippingAddress, total }`,
with `total.toString()` modelled as the string it produces). -/
structure OrderRequestBody where
  shippingAddress : Option String
  total : String
  deriving Repr, DecidableEq

/-- The order-items loop of the `POST /api/orders` handler: one
`createOrderItem` per cart item, in order.  `failAt = some k` makes the
`k`-th `createOrderItem` call reject (the backing store is asynchronous and
any call may fail); execution then stops with the mutations made so far,
and the `catch` of the handler returns 400.  Each item is stored with
`orderId: order._id` — `undefined` on a `MemStorage` order — and the
hard-coded price `"0.00"`. -/
def createOrderItemsLoop :
    MemState → List CartItem → Option Nat → Bool × MemState
  | s, [], _ => (true, s)
  | s, _ :: _, some 0 => (false, s)
  | s, item :: rest, failAt =>
      let r := MemStorage.createOrderItem s
        { orderId := none
          productId := item.productId
          quantity := item.quantity
          price := "0.00" }
      createOrderItemsLoop r.2 rest
        (match failAt with
         | some (k + 1) => some k
         | _ => none)

/-- Route `POST /api/orders`: read the cart; 400 if empty; create the order;
create the order items one by one; clear the cart last; 201 on success.
A failure injected into the item loop surfaces as the catch-all 400 of the
handler, with no rollback. -/
def createOrderHandler (s : MemState) (authUser : Option Nat)
    (body : OrderRequestBody) (failAt : Option Nat) : Nat × MemState :=
  match authUser with
  | none => (401, s)
  | some u =>
      let cart := MemStorage.getCartItems s u
      if cart.isEmpty then (400, s)
      else
        let r := MemStorage.createOrder s
          { userId := u
            total := body.total
            status := some "pending"
            shippingAddress :=
              (jsOrNullStr body.shippingAddress).getD "No address provided" }
        let loop := createOrderItemsLoop r.2 cart failAt
        if loop.1 then (201, MemStorage.clearCart loop.2 u)
        else (400, loop.2)

end Routes

/-! ## The read and write halves of `addToCart`

`addToCart` first reads (the existence check over the current cart) and
then writes (the quantity update or the insert).  For the concurrency
analysis the two halves are separated; `addToCart` is exactly the write
applied to its own read. -/

namespace MemStorage

/-- The existence-check read of `addToCart`. -/
def addToCartRead (s : MemState) (ic : InsertCartItem) : Option CartItem :=
  (mapValues s.cartItems).find?
    (fun item => item.userId = ic.userId ∧ item.productId = ic.productId)

/-- The write phase of `addToCart`, applied to a (possibly stale) read. -/
def addToCartWrite (s : MemState) (ic : InsertCartItem)
    (readResult : Option CartItem) : CartItem × MemState :=
  match readResult with
  | some existingItem =>
      let updatedItem :=
        { existingItem with quantity := existingItem.quantity + ic.quantity }
      (updatedItem,
        { s with cartItems := mapSet s.cartItems existingItem.id updatedItem })
  | none =>
      let id := s.currentCartItemId
      let cartItem : CartItem :=
        { id := id
          userId := ic.userId
          productId := ic.productId
          quantity := ic.quantity }
      (cartItem,
        { s with cartItems := mapSet s.cartItems id cartItem,
                 currentCartItemId := id + 1 })

theorem addToCart_eq_write_of_read (s : MemState) (ic : InsertCartItem) :
    addToCart s ic = addToCartWrite s ic (addToCartRead s ic) := rfl

/-- Both requests perform their existence-check reads against the initial
state, then both write — the interleaving R₁ R₂ W₁ W₂ that a pair of
concurrent `POST /api/cart` requests can produce, since nothing isolates
the read from the write. -/
def racyAddPair (s : MemState) (c1 c2 : InsertCartItem) : MemState :=
  let r1 := addToCartRead s c1
  let r2 := addToCartRead s c2
  let s1 := (addToCartWrite s c1 r1).2
  (addToCartWrite s1 c2 r2).2

/-- A sequential execution of the two requests, first `c1` then `c2`. -/
def seqAddPair (s : MemState) (c1 c2 : InsertCartItem) : MemState :=
  (addToCart (addToCart s c1).2 c2).2

/-- The total quantity the cart of a user holds for one product. -/
def productQuantity (s : MemState) (userId productId : Nat) : Int :=
  ((getCartItems s userId).filter
      (fun item => item.productId = productId)).foldl
    (fun acc item => acc + item.quantity) 0

end MemStorage

/-! ## The storage interface as a transition system (for the fresh-id
invariant).  Read-only methods do not mutate the state; the mutating
methods are collected into one step relation. -/

inductive StoreOp where
  | createUser (iu : InsertUser)
  | updateUser (id : Nat) (p : PartialUser)
  | createCategory (ic : InsertCategory)
  | updateCategory (id : Nat) (p : PartialCategory)
  | deleteCategory (id : Nat)
  | createProduct (ip : InsertProduct)
  | updateProduct (id : Nat) (p : PartialProduct)
  | deleteProduct (id : Nat)
  | createReview (ir : InsertReview)
  | deleteReview (id : Nat) (userId : Nat)
  | createOrder (io : InsertOrder)
  | updateOrderStatus (id : Nat) (status : String)
  | createOrderItem (item : MemStorage.OrderItemInput)
  | addToCart (ic : InsertCartItem)
  | updateCartItem (id : Nat) (quantity : Int)
  | removeFromCart (id : Nat) (userId : Nat)
  | clearCart (userId : Nat)
  | addToWishlist (iw : InsertWishlistItem)
  | removeFromWishlist (id : Nat) (userId : Nat)
  | createCoupon (ic : InsertCoupon)
  | updateCoupon (id : Nat) (p : PartialCoupon)
  | deleteCoupon (id : Nat)
  | createAddress (ia : InsertAddress)
  | updateAddress (id : Nat) (p : PartialAddress)
  | deleteAddress (id : Nat) (userId : Nat)

/-- Run one mutating interface method, keeping only the state. -/
def applyOp (s : MemState) : StoreOp → MemState
  | .createUser iu => (MemStorage.createUser s iu).2
  | .updateUser id p => (MemStorage.updateUser s id p).2
  | .createCategory ic => (MemStorage.createCategory s ic).2
  | .updateCategory id p => (MemStorage.updateCategory s id p).2
  | .deleteCategory id => (MemStorage.deleteCategory s id).2
  | .createProduct ip => (MemStorage.createProduct s ip).2
  | .updateProduct id p => (MemStorage.updateProduct s id p).2
  | .deleteProduct id => (MemStorage.deleteProduct s id).2
  | .createReview ir => (MemStorage.createReview s ir).2
  | .deleteReview id userId => (MemStorage.deleteReview s id userId).2
  | .createOrder io => (MemStorage.createOrder s io).2
  | .updateOrderStatus id st => (MemStorage.updateOrderStatus s id st).2
  | .createOrderItem item => (MemStorage.createOrderItem s item).2
  | .addToCart ic => (MemStorage.addToCart s ic).2
  | .updateCartItem id q => (MemStorage.updateCartItem s id q).2
  | .removeFromCart id userId => (MemStorage.removeFromCart s id userId).2
  | .clearCart userId => MemStorage.clearCart s userId
  | .addToWishlist iw => (MemStorage.addToWishlist s iw).2
  | .removeFromWishlist id userId => (MemStorage.removeFromWishlist s id userId).2
  | .createCoupon ic => (MemStorage.createCoupon s ic).2
  | .updateCoupon id p => (MemStorage.updateCoupon s id p).2
  | .deleteCoupon id => (MemStorage.deleteCoupon s id).2
  | .createAddress ia => (MemStorage.createAddress s ia).2
  | .updateAddress id p => (MemStorage.updateAddress s id p).2
  | .deleteAddress id userId => (MemStorage.deleteAddress s id userId).2

/-- The fresh-id invariant: each id counter strictly dominates every key of
its map. -/
def WF (s : MemState) : Prop :=
  mapBounded s.users s.currentUserId ∧
  mapBounded s.categories s.currentCategoryId ∧
  mapBounded s.products s.currentProductId ∧
  mapBounded s.reviews s.currentReviewId ∧
  mapBounded s.orders s.currentOrderId ∧
  mapBounded s.orderItems s.currentOrderItemId ∧
  mapBounded s.cartItems s.currentCartItemId ∧
  mapBounded s.wishlistItems s.currentWishlistItemId ∧
  mapBounded s.coupons s.currentCouponId ∧
  mapBounded s.addresses s.currentAddressId

instance (s : MemState) : Decidable (WF s) := by
  unfold WF
  infer_instance

/-- The `id` field of each stored cart item is the key it is stored under.  This
holds in the seeded state and is maintained by all four cart mutators; it
is needed because the merge branch of `addToCart` writes back under
`existingItem.id`. -/
def cartCoherent (s : MemState) : Prop :=
  ∀ p ∈ s.cartItems, p.2.id = p.1

instance (s : MemState) : Decidable (cartCoherent s) :=
  List.decidableBAll _ s.cartItems

/-- The inductive invariant: fresh ids plus cart-key coherence. -/
def StoreInv (s : MemState) : Prop :=
  WF s ∧ cartCoherent s

theorem mem_mapSet_strong {α : Type} {m : List (Nat × α)} {k : Nat} {v : α}
    {p : Nat × α} (h : p ∈ mapSet m k v) : p = (k, v) ∨ p ∈ m := by
  unfold mapSet at h
  by_cases ha : m.any (fun q => q.1 = k) = true
  · rw [if_pos ha] at h
    rcases List.mem_map.1 h with ⟨q, hq, rfl⟩
    by_cases hk : q.1 = k
    · left; simp [hk]
    · right; simpa [hk] using hq
  · rw [if_neg ha] at h
    rcases List.mem_append.1 h with h | h
    · right; exact h
    · left; simpa using h

theorem mapBounded_create {α : Type} {m : List (Nat × α)} {c : Nat}
    (hm : mapBounded m c) (v : α) : mapBounded (mapSet m c v) (c + 1) :=
  mapBounded_mapSet hm (Nat.lt_succ_self c) (Nat.le_succ c)

theorem mapBounded_update {α : Type} {m : List (Nat × α)} {c k : Nat}
    {w v : α} (hm : mapBounded m c) (hk : mapGet m k = some w) :
    mapBounded (mapSet m k v) c :=
  mapBounded_mapSet hm (hm _ (mem_of_mapGet_eq_some hk)) le_rfl

theorem mapBounded_delete {α : Type} {m : List (Nat × α)} {c k : Nat}
    (hm : mapBounded m c) : mapBounded (mapDelete m k).2 c :=
  mapBounded_filter _ hm

/-- Every mutating interface method preserves the inductive invariant. -/
theorem inv_applyOp (s : MemState) (op : StoreOp) (hInv : StoreInv s) :
    StoreInv (applyOp s op) := by
  obtain ⟨⟨h1, h2, h3, h4, h5, h6, h7, h8, h9, h10⟩, hco⟩ := hInv
  cases op with
  | createUser iu =>
      exact ⟨⟨mapBounded_create h1 _, h2, h3, h4, h5, h6, h7, h8, h9, h10⟩, hco⟩
  | updateUser id p =>
      simp only [applyOp, MemStorage.updateUser]
      cases hg : mapGet s.users id with
      | none => exact ⟨⟨h1, h2, h3, h4, h5, h6, h7, h8, h9, h10⟩, hco⟩
      | some u =>
          exact ⟨⟨mapBounded_update h1 hg, h2, h3, h4, h5, h6, h7, h8, h9, h10⟩, hco⟩
  | createCategory ic =>
      exact ⟨⟨h1, mapBounded_create h2 _, h3, h4, h5, h6, h7, h8, h9, h10⟩, hco⟩
  | updateCategory id p =>
      simp only [applyOp, MemStorage.updateCategory]
      cases hg : mapGet s.categories id with
      | none => exact ⟨⟨h1, h2, h3, h4, h5, h6, h7, h8, h9, h10⟩, hco⟩
      | some c =>
          exact ⟨⟨h1, mapBounded_update h2 hg, h3, h4, h5, h6, h7, h8, h9, h10⟩, hco⟩
  | deleteCategory id =>
      exact ⟨⟨h1, mapBounded_delete h2, h3, h4, h5, h6, h7, h8, h9, h10⟩, hco⟩
  | createProduct ip =>
      exact ⟨⟨h1, h2, mapBounded_create h3 _, h4, h5, h6, h7, h8, h9, h10⟩, hco⟩
  | updateProduct id p =>
      simp only [applyOp, MemStorage.updateProduct]
      cases hg : mapGet s.products id with
      | none => exact ⟨⟨h1, h2, h3, h4, h5, h6, h7, h8, h9, h10⟩, hco⟩
      | some pr =>
          exact ⟨⟨h1, h2, mapBounded_update h3 hg, h4, h5, h6, h7, h8, h9, h10⟩, hco⟩
  | deleteProduct id =>
      exact ⟨⟨h1, h2, mapBounded_delete h3, h4, h5, h6, h7, h8, h9, h10⟩, hco⟩
  | createReview ir =>
      exact ⟨⟨h1, h2, h3, mapBounded_create h4 _, h5, h6, h7, h8, h9, h10⟩, hco⟩
  | deleteReview id userId =>
      simp only [applyOp, MemStorage.deleteReview]
      cases hg : mapGet s.reviews id with
      | none => exact ⟨⟨h1, h2, h3, h4, h5, h6, h7, h8, h9, h10⟩, hco⟩
      | some r =>
          by_cases hu : r.userId ≠ userId
          · simp only [if_pos hu]
            exact ⟨⟨h1, h2, h3, h4, h5, h6, h7, h8, h9, h10⟩, hco⟩
          · simp only [if_neg hu]
            exact ⟨⟨h1, h2, h3, mapBounded_delete h4, h5, h6, h7, h8, h9, h10⟩, hco⟩
  | createOrder io =>
      exact ⟨⟨h1, h2, h3, h4, mapBounded_create h5 _, h6, h7, h8, h9, h10⟩, hco⟩
  | updateOrderStatus id st =>
      simp only [applyOp, MemStorage.updateOrderStatus]
      cases hg : mapGet s.orders id with
      | none => exact ⟨⟨h1, h2, h3, h4, h5, h6, h7, h8, h9, h10⟩, hco⟩
      | some o =>
          exact ⟨⟨h1, h2, h3, h4, mapBounded_update h5 hg, h6, h7, h8, h9, h10⟩, hco⟩
  | createOrderItem item =>
      exact ⟨⟨h1, h2, h3, h4, h5, mapBounded_create h6 _, h7, h8, h9, h10⟩, hco⟩
  | addToCart ic =>
      simp only [applyOp, MemStorage.addToCart]
      cases hf : (mapValues s.cartItems).find?
          (fun item => item.userId = ic.userId ∧ item.productId = ic.productId) with
      | none =>
          refine ⟨⟨h1, h2, h3, h4, h5, h6, mapBounded_create h7 _, h8, h9, h10⟩, ?_⟩
          intro p hp
          rcases mem_mapSet_strong hp with h | h
          · rw [h]
          · exact hco p h
      | some e =>
          have he : e ∈ mapValues s.cartItems := List.mem_of_find?_eq_some hf
          rcases List.mem_map.1 he with ⟨q, hq, hq2⟩
          have hid : e.id = q.1 := by rw [← hq2]; exact hco q hq
          refine ⟨⟨h1, h2, h3, h4, h5, h6,
            mapBounded_mapSet h7 (hid ▸ h7 q hq) le_rfl, h8, h9, h10⟩, ?_⟩
          intro p hp
          rcases mem_mapSet_strong hp with h | h
          · rw [h]
          · exact hco p h
  | updateCartItem id q =>
      simp only [applyOp, MemStorage.updateCartItem]
      cases hg : mapGet s.cartItems id with
      | none => exact ⟨⟨h1, h2, h3, h4, h5, h6, h7, h8, h9, h10⟩, hco⟩
      | some item =>
          have hid : item.id = id := hco _ (mem_of_mapGet_eq_some hg)
          refine ⟨⟨h1, h2, h3, h4, h5, h6, mapBounded_update h7 hg, h8, h9, h10⟩, ?_⟩
          intro p hp
          rcases mem_mapSet_strong hp with h | h
          · rw [h]; exact hid
          · exact hco p h
  | removeFromCart id userId =>
      simp only [applyOp, MemStorage.removeFromCart]
      cases hg : mapGet s.cartItems id with
      | none => exact ⟨⟨h1, h2, h3, h4, h5, h6, h7, h8, h9, h10⟩, hco⟩
      | some item =>
          by_cases hu : item.userId ≠ userId
          · simp only [if_pos hu]
            exact ⟨⟨h1, h2, h3, h4, h5, h6, h7, h8, h9, h10⟩, hco⟩
          · simp only [if_neg hu]
            refine ⟨⟨h1, h2, h3, h4, h5, h6, mapBounded_delete h7, h8, h9, h10⟩, ?_⟩
            intro p hp
            exact hco p (List.mem_of_mem_filter hp)
  | clearCart userId =>
      refine ⟨⟨h1, h2, h3, h4, h5, h6, mapBounded_filter _ h7, h8, h9, h10⟩, ?_⟩
      intro p hp
      exact hco p (List.mem_of_mem_filter hp)
  | addToWishlist iw =>
      exact ⟨⟨h1, h2, h3, h4, h5, h6, h7, mapBounded_create h8 _, h9, h10⟩, hco⟩
  | removeFromWishlist id userId =>
      simp only [applyOp, MemStorage.removeFromWishlist]
      cases hg : mapGet s.wishlistItems id with
      | none => exact ⟨⟨h1, h2, h3, h4, h5, h6, h7, h8, h9, h10⟩, hco⟩
      | some item =>
          by_cases hu : item.userId ≠ userId
          · simp only [if_pos hu]
            exact ⟨⟨h1, h2, h3, h4, h5, h6, h7, h8, h9, h10⟩, hco⟩
          · simp only [if_neg hu]
            exact ⟨⟨h1, h2, h3, h4, h5, h6, h7, mapBounded_delete h8, h9, h10⟩, hco⟩
  | createCoupon ic =>
      exact ⟨⟨h1, h2, h3, h4, h5, h6, h7, h8, mapBounded_create h9 _, h10⟩, hco⟩
  | updateCoupon id p =>
      simp only [applyOp, MemStorage.updateCoupon]
      cases hg : mapGet s.coupons id with
      | none => exact ⟨⟨h1, h2, h3, h4, h5, h6, h7, h8, h9, h10⟩, hco⟩
      | some c =>
          exact ⟨⟨h1, h2, h3, h4, h5, h6, h7, h8, mapBounded_update h9 hg, h10⟩, hco⟩
  | deleteCoupon id =>
      exact ⟨⟨h1, h2, h3, h4, h5, h6, h7, h8, mapBounded_delete h9, h10⟩, hco⟩
  | createAddress ia =>
      exact ⟨⟨h1, h2, h3, h4, h5, h6, h7, h8, h9, mapBounded_create h10 _⟩, hco⟩
  | updateAddress id p =>
      simp only [applyOp, MemStorage.updateAddress]
      cases hg : mapGet s.addresses id with
      | none => exact ⟨⟨h1, h2, h3, h4, h5, h6, h7, h8, h9, h10⟩, hco⟩
      | some a =>
          exact ⟨⟨h1, h2, h3, h4, h5, h6, h7, h8, h9, mapBounded_update h10 hg⟩, hco⟩
  | deleteAddress id userId =>
      simp only [applyOp, MemStorage.deleteAddress]
      cases hg : mapGet s.addresses id with
      | none => exact ⟨⟨h1, h2, h3, h4, h5, h6, h7, h8, h9, h10⟩, hco⟩
      | some a =>
          by_cases hu : a.userId ≠ userId
          · simp only [if_pos hu]
            exact ⟨⟨h1, h2, h3, h4, h5, h6, h7, h8, h9, h10⟩, hco⟩
          · simp only [if_neg hu]
            exact ⟨⟨h1, h2, h3, h4, h5, h6, h7, h8, h9, mapBounded_delete h10⟩, hco⟩

/-- The states a `MemStorage` instance can reach: the seeded constructor
state followed by any sequence of interface calls. -/
inductive Reachable : MemState → Prop where
  | seed : Reachable seedState
  | step : ∀ (s : MemState) (op : StoreOp), Reachable s → Reachable (applyOp s op)

theorem inv_seedState : StoreInv seedState := by
  constructor
  · constructor <;> decide
  · decide

theorem inv_of_reachable {s : MemState} (h : Reachable s) : StoreInv s := by
  induction h with
  | seed => exact inv_seedState
  | step s op _ ih => exact inv_applyOp s op ih

/-! ## Helper lemmas for the claim theorems -/

theorem containsStr_empty (hay : String) :
    MemStorage.containsStr hay "" = true :=
  decide_eq_true List.nil_infix

theorem foldl_add_eq_sum {α : Type} (f : α → ℚ) :
    ∀ (l : List α) (a : ℚ), l.foldl (fun s x => s + f x) a = a + (l.map f).sum
  | [], a => by simp
  | x :: l, a => by
      rw [List.foldl_cons, foldl_add_eq_sum f l (a + f x)]
      simp [add_assoc]

theorem not_any_counter {α : Type} {m : List (Nat × α)} {c : Nat}
    (hm : mapBounded m c) : ¬ m.any (fun p => p.1 = c) = true := by
  intro ha
  rcases List.any_eq_true.1 ha with ⟨p, hp, hk⟩
  have := hm p hp
  simp only [decide_eq_true_eq] at hk
  omega

/-- Creating under a fresh id appends, so a filter-count grows by exactly
one whenever the new record matches the filter. -/
theorem count_after_create {α : Type} {m : List (Nat × α)} {c : Nat} (v : α)
    (f : α → Bool) (hm : mapBounded m c) (hf : f v = true) :
    ((mapValues (mapSet m c v)).filter f).length =
      ((mapValues m).filter f).length + 1 := by
  rw [mapSet_append (not_any_counter hm)]
  simp [mapValues, List.filter_append, hf]

/-- The order-items loop never touches the `orders` map. -/
theorem createOrderItemsLoop_orders :
    ∀ (items : List CartItem) (s : MemState) (failAt : Option Nat),
      (Routes.createOrderItemsLoop s items failAt).2.orders = s.orders
  | [], s, _ => rfl
  | _ :: rest, s, some 0 => rfl
  | item :: rest, s, none => createOrderItemsLoop_orders rest _ none
  | item :: rest, s, some (k + 1) => createOrderItemsLoop_orders rest _ (some k)

/-- A state with one cart item (id 1, user 1, product 1, quantity 2),
reached from the seeded state by one `addToCart`. -/
def demoCartState : MemState :=
  (MemStorage.addToCart seedState
    { userId := 1, productId := 1, quantity := 2 }).2

theorem demoCartState_reachable : Reachable demoCartState :=
  Reachable.step seedState
    (StoreOp.addToCart { userId := 1, productId := 1, quantity := 2 })
    Reachable.seed

/-! ## Claim theorems -/

/-- C10: In `MemStorage` every per-entity id counter is strictly greater
than every key present in the corresponding map (`WF`): this holds in every
reachable state, every interface operation preserves it, under it every
counter id is not previously in use (`mapGet` of the counter is `none`), and
setting a map at such a fresh id appends a new entry and never overwrites an
existing record. -/
theorem fresh_id_invariant :
    (∀ s : MemState, Reachable s → WF s) ∧
    (∀ (s : MemState) (op : StoreOp), Reachable s → WF (applyOp s op)) ∧
    (∀ s : MemState, WF s →
      mapGet s.users s.currentUserId = none ∧
      mapGet s.categories s.currentCategoryId = none ∧
      mapGet s.products s.currentProductId = none ∧
      mapGet s.reviews s.currentReviewId = none ∧
      mapGet s.orders s.currentOrderId = none ∧
      mapGet s.orderItems s.currentOrderItemId = none ∧
      mapGet s.cartItems s.currentCartItemId = none ∧
      mapGet s.wishlistItems s.currentWishlistItemId = none ∧
      mapGet s.coupons s.currentCouponId = none ∧
      mapGet s.addresses s.currentAddressId = none) ∧
    (∀ {α : Type} (m : List (Nat × α)) (c : Nat) (v : α),
      mapBounded m c → mapSet m c v = m ++ [(c, v)]) := by
  refine ⟨fun s h => (inv_of_reachable h).1,
    fun s op h => (inv_applyOp s op (inv_of_reachable h)).1,
    fun s h => ?_,
    fun m c v hm => mapSet_append (not_any_counter hm)⟩
  obtain ⟨h1, h2, h3, h4, h5, h6, h7, h8, h9, h10⟩ := h
  exact ⟨mapGet_counter_none h1, mapGet_counter_none h2, mapGet_counter_none h3,
    mapGet_counter_none h4, mapGet_counter_none h5, mapGet_counter_none h6,
    mapGet_counter_none h7, mapGet_counter_none h8, mapGet_counter_none h9,
    mapGet_counter_none h10⟩

/-- Witness for C10: the invariant evaluated on a concrete reachable state
(the seeded state after one `addToCart`), and the concrete freshness of the
product counter there. -/
theorem fresh_id_invariant_witness :
    WF demoCartState ∧
    mapGet demoCartState.products demoCartState.currentProductId = none :=
  ⟨fresh_id_invariant.1 demoCartState demoCartState_reachable,
   (fresh_id_invariant.2.2.1 demoCartState
     (fresh_id_invariant.1 demoCartState demoCartState_reachable)).2.2.1⟩

/-- C1: `addToCart` merges on an existing `(userId, productId)` pair — the
returned item is the existing one with its quantity increased by the
requested quantity, stored back under the same key so the number of cart
items is unchanged — and otherwise inserts a new item under the fresh
counter id (not previously in use) with exactly the requested quantity.
The hypotheses (keys below the counter, the `id` field of each item equal to its
key) hold in every reachable state (`inv_of_reachable`). -/
theorem addToCart_merge_or_insert (s : MemState) (c : InsertCartItem)
    (hb : mapBounded s.cartItems s.currentCartItemId)
    (hco : cartCoherent s) :
    (∀ e : CartItem, MemStorage.addToCartRead s c = some e →
      (MemStorage.addToCart s c).1 =
        { e with quantity := e.quantity + c.quantity } ∧
      (MemStorage.addToCart s c).2.cartItems.length = s.cartItems.length ∧
      mapGet (MemStorage.addToCart s c).2.cartItems e.id =
        some { e with quantity := e.quantity + c.quantity }) ∧
    (MemStorage.addToCartRead s c = none →
      (MemStorage.addToCart s c).1 =
        { id := s.currentCartItemId, userId := c.userId,
          productId := c.productId, quantity := c.quantity } ∧
      mapGet s.cartItems (MemStorage.addToCart s c).1.id = none ∧
      (MemStorage.addToCart s c).2.cartItems =
        s.cartItems ++
          [((MemStorage.addToCart s c).1.id, (MemStorage.addToCart s c).1)]) := by
  constructor
  · intro e he
    simp only [MemStorage.addToCartRead] at he
    simp only [MemStorage.addToCart, he]
    have hmem : e ∈ mapValues s.cartItems := List.mem_of_find?_eq_some he
    rcases List.mem_map.1 hmem with ⟨q, hq, hq2⟩
    have hid : e.id = q.1 := by rw [← hq2]; exact hco q hq
    have hany : s.cartItems.any (fun p => p.1 = e.id) = true :=
      List.any_eq_true.2 ⟨q, hq, by simp [hid]⟩
    exact ⟨True.intro, length_mapSet_replace hany, mapGet_mapSet_self _ _ _⟩
  · intro he
    simp only [MemStorage.addToCartRead] at he
    simp only [MemStorage.addToCart, he]
    exact ⟨True.intro, mapGet_counter_none hb, mapSet_append (not_any_counter hb)⟩

/-- Witness for C1: in the demo state user 1 already has product 1 with
quantity 2; adding 3 more returns the merged item with quantity 5 and the
cart still holds one item.  In the seeded state (empty cart) the same
request inserts a fresh item with quantity 3 under the fresh id 1. -/
theorem addToCart_merge_or_insert_witness :
    (MemStorage.addToCart demoCartState
        { userId := 1, productId := 1, quantity := 3 }).1 =
      { id := 1, userId := 1, productId := 1, quantity := 5 } ∧
    (MemStorage.addToCart demoCartState
        { userId := 1, productId := 1, quantity := 3 }).2.cartItems.length =
      demoCartState.cartItems.length ∧
    (MemStorage.addToCart seedState
        { userId := 1, productId := 1, quantity := 3 }).1 =
      { id := 1, userId := 1, productId := 1, quantity := 3 } ∧
    mapGet seedState.cartItems 1 = none := by
  have h1 := (addToCart_merge_or_insert demoCartState
      { userId := 1, productId := 1, quantity := 3 } (by decide) (by decide)).1
    { id := 1, userId := 1, productId := 1, quantity := 2 } (by decide)
  have h2 := (addToCart_merge_or_insert seedState
      { userId := 1, productId := 1, quantity := 3 } (by decide) (by decide)).2
    (by decide)
  exact ⟨h1.1.trans (by decide), h1.2.1, h2.1.trans (by decide), h2.2.1⟩

/-! ## C2: uniqueness of username / email / SKU / coupon code -/

def usernameCount (s : MemState) (username : String) : Nat :=
  ((mapValues s.users).filter (fun u => u.username = username)).length

def emailCount (s : MemState) (email : String) : Nat :=
  ((mapValues s.users).filter (fun u => u.email = email)).length

def skuCount (s : MemState) (sku : String) : Nat :=
  ((mapValues s.products).filter (fun p => p.sku = sku)).length

def couponCodeCount (s : MemState) (code : String) : Nat :=
  ((mapValues s.coupons).filter (fun c => c.code = code)).length

def duplicateSkuInput : InsertProduct :=
  { name := "Duplicate Headphones", description := "another product",
    price := "10.00", sku := "WH-001" }

/-- Counterexample to C2: the seeded state already contains a product with
SKU `"WH-001"`, and `createProduct` performs no uniqueness check, so one
interface call reaches a state in which two products share that SKU. -/
theorem sku_uniqueness_fails :
    Reachable (MemStorage.createProduct seedState duplicateSkuInput).2 ∧
    skuCount (MemStorage.createProduct seedState duplicateSkuInput).2 "WH-001" = 2 := by
  constructor
  · exact Reachable.step seedState (StoreOp.createProduct duplicateSkuInput)
      Reachable.seed
  · decide

/-- C2 (amended): the storage layer does not enforce uniqueness.
`createUser`, `createProduct` and `createCoupon` insert unconditionally:
from any state satisfying the fresh-id bound, the number of stored records
carrying the inserted username / email / SKU / coupon code grows by exactly
one, whether or not a record with that value already exists. -/
theorem create_does_not_enforce_uniqueness (s : MemState)
    (hu : mapBounded s.users s.currentUserId)
    (hp : mapBounded s.products s.currentProductId)
    (hc : mapBounded s.coupons s.currentCouponId)
    (iu : InsertUser) (ip : InsertProduct) (ic : InsertCoupon) :
    usernameCount (MemStorage.createUser s iu).2 iu.username =
      usernameCount s iu.username + 1 ∧
    emailCount (MemStorage.createUser s iu).2 iu.email =
      emailCount s iu.email + 1 ∧
    skuCount (MemStorage.createProduct s ip).2 ip.sku =
      skuCount s ip.sku + 1 ∧
    couponCodeCount (MemStorage.createCoupon s ic).2 ic.code =
      couponCodeCount s ic.code + 1 := by
  refine ⟨?_, ?_, ?_, ?_⟩
  · exact count_after_create _ _ hu (by simp)
  · exact count_after_create _ _ hu (by simp)
  · exact count_after_create _ _ hp (by simp)
  · exact count_after_create _ _ hc (by simp)

/-- Witness for the amended C2 at the seeded state: inserting a product
with the already-used SKU `"WH-001"` raises its count from 1 to 2. -/
theorem create_does_not_enforce_uniqueness_witness :
    skuCount (MemStorage.createProduct seedState duplicateSkuInput).2 "WH-001" =
      skuCount seedState "WH-001" + 1 :=
  (create_does_not_enforce_uniqueness seedState (by decide) (by decide)
    (by decide)
    { username := "admin", email := "admin@shopmaster.com", password := "x",
      firstName := "a", lastName := "b" }
    duplicateSkuInput
    { code := "SAVE15", description := "again", discountType := "percentage",
      discountValue := "15" }).2.2.1

/-! ## C4: creating then fetching a product -/

def emptySalePriceInput : InsertProduct :=
  { name := "N", description := "D", price := "5.00", sku := "X-1",
    salePrice := some "" }

/-- Counterexample to C4: `salePrice` is defaulted with `||`, so an input
whose `salePrice` is present but equal to `""` is stored as `null`, and the
fetched product comes back with a `null` `salePrice` instead. -/
theorem create_fetch_salePrice_mismatch :
    emptySalePriceInput.salePrice = some "" ∧
    (MemStorage.getProduct
        (MemStorage.createProduct seedState emptySalePriceInput).2
        (MemStorage.createProduct seedState emptySalePriceInput).1.id).map
      Product.salePrice = some none := by
  exact ⟨rfl, by decide⟩

/-- C4 (amended): for every state and every product input, fetching the id
returned by `createProduct` returns exactly the created record; its `name`,
`description`, `price` and `sku` equal those of the input, `stock` defaults to 0
and `isActive` to `true` when absent, while `salePrice`, `categoryId` and
`imageUrl` are `null` when absent or falsy (`""` for the strings, `0` for
the category id) and otherwise equal the value supplied. -/
theorem create_then_fetch_product (s : MemState) (p : InsertProduct) :
    MemStorage.getProduct (MemStorage.createProduct s p).2
        (MemStorage.createProduct s p).1.id =
      some (MemStorage.createProduct s p).1 ∧
    (MemStorage.createProduct s p).1.name = p.name ∧
    (MemStorage.createProduct s p).1.description = p.description ∧
    (MemStorage.createProduct s p).1.price = p.price ∧
    (MemStorage.createProduct s p).1.sku = p.sku ∧
    (MemStorage.createProduct s p).1.salePrice = jsOrNullStr p.salePrice ∧
    (MemStorage.createProduct s p).1.categoryId = jsOrNullNat p.categoryId ∧
    (MemStorage.createProduct s p).1.stock = p.stock.getD 0 ∧
    (MemStorage.createProduct s p).1.imageUrl = jsOrNullStr p.imageUrl ∧
    (MemStorage.createProduct s p).1.isActive = p.isActive.getD true :=
  ⟨mapGet_mapSet_self _ _ _, rfl, rfl, rfl, rfl, rfl, rfl, rfl, rfl, rfl⟩

/-! ## C5: removing a cart item owned by another user -/

/-- C5: if cart item `i` exists but belongs to a different user, then
`removeFromCart(i, u)` returns `false` with the state unchanged (the item
in particular still present), and the `DELETE /api/cart/:id` route responds
404. -/
theorem removeFromCart_other_user (s : MemState) (i u : Nat) (item : CartItem)
    (hi : mapGet s.cartItems i = some item) (hu : item.userId ≠ u) :
    MemStorage.removeFromCart s i u = (false, s) ∧
    mapGet (MemStorage.removeFromCart s i u).2.cartItems i = some item ∧
    Routes.deleteCartHandler s (some u) i = (404, s) := by
  have hrm : MemStorage.removeFromCart s i u = (false, s) := by
    simp only [MemStorage.removeFromCart, hi, if_pos hu]
  refine ⟨hrm, ?_, ?_⟩
  · rw [hrm]; exact hi
  · simp only [Routes.deleteCartHandler, hrm]
    rfl

/-- Witness for C5: in the demo state cart item 1 belongs to user 1;
the removal attempt by user 2 fails with 404 and the item survives. -/
theorem removeFromCart_other_user_witness :
    MemStorage.removeFromCart demoCartState 1 2 = (false, demoCartState) ∧
    Routes.deleteCartHandler demoCartState (some 2) 1 = (404, demoCartState) := by
  have h := removeFromCart_other_user demoCartState 1 2
    { id := 1, userId := 1, productId := 1, quantity := 2 } (by decide) (by decide)
  exact ⟨h.1, h.2.2⟩

/-! ## C3: order creation and cart clearing are not atomic -/

theorem getOrder_after_create (s : MemState) (io : InsertOrder) :
    MemStorage.getOrder (MemStorage.createOrder s io).2 s.currentOrderId =
      some (MemStorage.createOrder s io).1 :=
  mapGet_mapSet_self _ _ _

theorem orders_length_after_create (s : MemState) (io : InsertOrder)
    (h : mapBounded s.orders s.currentOrderId) :
    (MemStorage.createOrder s io).2.orders.length = s.orders.length + 1 := by
  rw [show (MemStorage.createOrder s io).2.orders =
      mapSet s.orders s.currentOrderId (MemStorage.createOrder s io).1 from rfl]
  rw [mapSet_append (not_any_counter h)]
  simp

/-- C3: the `POST /api/orders` handler creates the order first, then the
order items one by one, and clears the cart last.  If the first
`createOrderItem` call fails, the catch of the handler returns 400 while the
freshly created order is already in storage and every cart item of the
user is still present — nothing rolls the state back. -/
theorem order_creation_not_atomic (s : MemState) (u : Nat)
    (body : Routes.OrderRequestBody)
    (hcart : MemStorage.getCartItems s u ≠ [])
    (horders : mapBounded s.orders s.currentOrderId) :
    (Routes.createOrderHandler s (some u) body (some 0)).1 = 400 ∧
    MemStorage.getOrder s s.currentOrderId = none ∧
    ((MemStorage.getOrder (Routes.createOrderHandler s (some u) body (some 0)).2
        s.currentOrderId).isSome = true) ∧
    (Routes.createOrderHandler s (some u) body (some 0)).2.cartItems =
      s.cartItems ∧
    (Routes.createOrderHandler s (some u) body (some 0)).2.orders.length =
      s.orders.length + 1 := by
  cases hc : MemStorage.getCartItems s u with
  | nil => exact absurd hc hcart
  | cons a rest =>
      have hrun : Routes.createOrderHandler s (some u) body (some 0) =
          (400, (MemStorage.createOrder s
            { userId := u
              total := body.total
              status := some "pending"
              shippingAddress :=
                (jsOrNullStr body.shippingAddress).getD "No address provided" }).2) := by
        simp only [Routes.createOrderHandler, hc, List.isEmpty_cons,
          Routes.createOrderItemsLoop]
        rfl
      have hfst : (Routes.createOrderHandler s (some u) body (some 0)).1 = 400 := by
        rw [hrun]
      have hsnd : (Routes.createOrderHandler s (some u) body (some 0)).2 =
          (MemStorage.createOrder s
            { userId := u
              total := body.total
              status := some "pending"
              shippingAddress :=
                (jsOrNullStr body.shippingAddress).getD "No address provided" }).2 := by
        rw [hrun]
      refine ⟨hfst, mapGet_counter_none horders, ?_, ?_, ?_⟩
      · rw [hsnd, getOrder_after_create]
        rfl
      · rw [hsnd]
        rfl
      · rw [hsnd, orders_length_after_create s _ horders]

/-- Witness for C3: the cart of user 1 in the demo state is nonempty, and the
failing run leaves the order behind with the cart intact. -/
theorem order_creation_not_atomic_witness :
    (Routes.createOrderHandler demoCartState (some 1)
        { shippingAddress := some "1 Main St", total := "10.00" } (some 0)).1 = 400 ∧
    (Routes.createOrderHandler demoCartState (some 1)
        { shippingAddress := some "1 Main St", total := "10.00" } (some 0)).2.cartItems =
      demoCartState.cartItems := by
  have h := order_creation_not_atomic demoCartState 1
    { shippingAddress := some "1 Main St", total := "10.00" }
    (by decide) (by decide)
  exact ⟨h.1, h.2.2.2.1⟩

/-! ## C6: `getProducts` filtering -/

theorem toLower_empty : "".toLower = "" := by
  show "".map Char.toLower = ""
  rw [String.map_eq]
  rfl

/-- C6 (amended): as long as the supplied `categoryId` is not the JS-falsy
`0`, `getProducts` returns exactly the active products that match the
optional category filter and the optional case-insensitive name/description
substring search, conjunctively. -/
theorem getProducts_filter_semantics (s : MemState) (c : Option Nat)
    (q : Option String) (p : Product) (hc : c ≠ some 0) :
    p ∈ MemStorage.getProducts s c q ↔
      p ∈ mapValues s.products ∧ p.isActive = true ∧
      (∀ cid, c = some cid → p.categoryId = some cid) ∧
      (∀ str, q = some str →
        (MemStorage.containsStr p.name.toLower str.toLower ||
         MemStorage.containsStr p.description.toLower str.toLower) = true) := by
  cases c with
  | none =>
      cases q with
      | none => simp [MemStorage.getProducts, List.mem_filter]
      | some str =>
          by_cases hs : str = ""
          · subst hs
            simp [MemStorage.getProducts, List.mem_filter, toLower_empty,
              containsStr_empty, and_assoc] <;> tauto
          · simp [MemStorage.getProducts, List.mem_filter, hs, and_assoc] <;> tauto
  | some cid =>
      have hcid : ¬ cid = 0 := fun h => hc (by rw [h])
      cases q with
      | none =>
          simp [MemStorage.getProducts, List.mem_filter, hcid, and_assoc] <;> tauto
      | some str =>
          by_cases hs : str = ""
          · subst hs
            simp [MemStorage.getProducts, List.mem_filter, hcid, toLower_empty,
              containsStr_empty, and_assoc] <;> tauto
          · simp [MemStorage.getProducts, List.mem_filter, hcid, hs, and_assoc] <;> tauto

/-- Counterexample to C6 as stated: querying the seeded catalog with
`categoryId = 0` (JS-falsy) skips the category filter entirely, returning
all three active products although none has `categoryId = 0`. -/
theorem getProducts_zero_category_counterexample :
    (MemStorage.getProducts seedState (some 0) none).length = 3 ∧
    (MemStorage.getProducts seedState (some 0) none).all
      (fun p => p.categoryId = some 1) = true := by
  decide

/-- Witness for the amended C6: the seeded headphones product is returned
for its own category. -/
theorem getProducts_filter_semantics_witness :
    ({ id := 1, name := "Premium Wireless Headphones",
       description := "High-quality sound with noise cancellation technology",
       price := "89.99", salePrice := some "76.49", sku := "WH-001",
       categoryId := some 1, stock := 45,
       imageUrl := some "https://images.unsplash.com/photo-1505740420928-5e560c06d30e?ixlib=rb-4.0.3&w=400&h=300&fit=crop",
       isActive := true } : Product) ∈
      MemStorage.getProducts seedState (some 1) none :=
  (getProducts_filter_semantics seedState (some 1) none _ (by decide)).2
    ⟨by decide, by decide,
     fun cid h => by cases h; decide,
     fun str h => by cases h⟩

/-! ## C7: checkout order-total computation -/

/-- The seeded headphones as the only (joined) cart line at quantity 1:
its sale price 76.49 makes the subtotal 76.49, so the tax 6.1192 has
sub-cent precision. -/
def saleItem : ClientCartItem :=
  { productId := 1, quantity := 1, price := 89.99, salePrice := some 76.49 }

/-- Counterexample to C7 as stated: with the single 76.49 line the computed
total is 82.6092, but the value submitted with the order is
`total.toFixed(2)` = 82.61 ≠ subtotal + tax + shipping. -/
theorem checkout_submitted_total_rounded :
    Checkout.checkoutSubtotal [saleItem] = 76.49 ∧
    Checkout.checkoutTotal [saleItem] = 82.6092 ∧
    (Checkout.checkoutOrderData 2 [saleItem] "addr").total = 82.61 ∧
    (Checkout.checkoutOrderData 2 [saleItem] "addr").total ≠
      Checkout.checkoutSubtotal [saleItem] + Checkout.checkoutTax [saleItem] +
        Checkout.checkoutShipping [saleItem] := by
  have hsub : Checkout.checkoutSubtotal [saleItem] = 76.49 := by
    simp [Checkout.checkoutSubtotal, saleItem]
  have hship : Checkout.checkoutShipping [saleItem] = 0 := by
    rw [Checkout.checkoutShipping, hsub]
    norm_num
  have htax : Checkout.checkoutTax [saleItem] = 6.1192 := by
    rw [Checkout.checkoutTax, hsub]
    norm_num
  have htot : Checkout.checkoutTotal [saleItem] = 82.6092 := by
    rw [Checkout.checkoutTotal, hsub, htax, hship]
    norm_num
  have hfix : Checkout.toFixed2 82.6092 = 82.61 := by
    rw [Checkout.toFixed2]
    norm_num
  refine ⟨hsub, htot, ?_, ?_⟩
  · show Checkout.toFixed2 (Checkout.checkoutTotal [saleItem]) = 82.61
    rw [htot, hfix]
  · show Checkout.toFixed2 (Checkout.checkoutTotal [saleItem]) ≠ _
    rw [htot, hfix, hsub, htax, hship]
    norm_num

/-- C7 (amended): the checkout page computes tax as exactly 8% of the
subtotal, shipping as 0 exactly when the subtotal strictly exceeds 50 and
9.99 otherwise, the total as subtotal + tax + shipping, the subtotal as the
sum over cart lines of (salePrice if present, else price) times quantity —
and the total submitted with the order is that total rounded to two decimal
places by `toFixed(2)`. -/
theorem checkout_totals (items : List ClientCartItem) (u : Nat) (addr : String) :
    Checkout.checkoutSubtotal items =
      (items.map (fun it => (it.salePrice.getD it.price) * (it.quantity : ℚ))).sum ∧
    Checkout.checkoutTax items = Checkout.checkoutSubtotal items * (8 / 100) ∧
    Checkout.checkoutShipping items =
      (if Checkout.checkoutSubtotal items > 50 then 0 else 999 / 100) ∧
    Checkout.checkoutTotal items =
      Checkout.checkoutSubtotal items + Checkout.checkoutTax items +
        Checkout.checkoutShipping items ∧
    (Checkout.checkoutOrderData u items addr).total =
      Checkout.toFixed2 (Checkout.checkoutSubtotal items +
        Checkout.checkoutTax items + Checkout.checkoutShipping items) := by
  refine ⟨?_, ?_, ?_, rfl, rfl⟩
  · rw [Checkout.checkoutSubtotal, foldl_add_eq_sum, zero_add]
  · rw [Checkout.checkoutTax]
    norm_num
  · rw [Checkout.checkoutShipping]
    norm_num

/-! ## C8: the read-then-write race in cart add -/

def addRequestA : InsertCartItem := { userId := 1, productId := 1, quantity := 3 }

def addRequestB : InsertCartItem := { userId := 1, productId := 1, quantity := 4 }

/-- C8: `addToCart` is its write phase applied to its own existence-check
read, with nothing isolating the two; interleaving the reads of two
concurrent `POST /api/cart` requests for the same user and product before
either write (R₁ R₂ W₁ W₂) loses one update: starting from the demo cart
(quantity 2), adding 3 and 4 concurrently can leave quantity 6, while every
sequential execution of the two requests gives 9. -/
theorem cart_add_race_lost_update :
    MemStorage.addToCart demoCartState addRequestA =
      MemStorage.addToCartWrite demoCartState addRequestA
        (MemStorage.addToCartRead demoCartState addRequestA) ∧
    MemStorage.productQuantity
      (MemStorage.racyAddPair demoCartState addRequestA addRequestB) 1 1 = 6 ∧
    MemStorage.productQuantity
      (MemStorage.seqAddPair demoCartState addRequestA addRequestB) 1 1 = 9 ∧
    MemStorage.productQuantity
      (MemStorage.seqAddPair demoCartState addRequestB addRequestA) 1 1 = 9 ∧
    MemStorage.productQuantity
        (MemStorage.racyAddPair demoCartState addRequestA addRequestB) 1 1 ≠
      MemStorage.productQuantity
        (MemStorage.seqAddPair demoCartState addRequestA addRequestB) 1 1 ∧
    MemStorage.productQuantity
        (MemStorage.racyAddPair demoCartState addRequestA addRequestB) 1 1 ≠
      MemStorage.productQuantity
        (MemStorage.seqAddPair demoCartState addRequestB addRequestA) 1 1 :=
  ⟨MemStorage.addToCart_eq_write_of_read demoCartState addRequestA,
   by decide, by decide, by decide, by decide, by decide⟩

/-! ## C9: applying a coupon changes no computed or persisted total -/

theorem createOrderItemsLoop_none_succeeds :
    ∀ (l : List CartItem) (s : MemState),
      (Routes.createOrderItemsLoop s l none).1 = true
  | [], _ => rfl
  | _ :: rest, s => createOrderItemsLoop_none_succeeds rest _

/-- On the success path (`failAt = none`, nonempty cart) the stored order
is exactly the record `createOrder` built from the `orderData` of the handler. -/
theorem createOrderHandler_success_getOrder (s : MemState) (u : Nat)
    (body : Routes.OrderRequestBody) (a : CartItem) (rest : List CartItem)
    (hc : MemStorage.getCartItems s u = a :: rest) :
    MemStorage.getOrder (Routes.createOrderHandler s (some u) body none).2
        s.currentOrderId =
      some (MemStorage.createOrder s
        { userId := u
          total := body.total
          status := some "pending"
          shippingAddress :=
            (jsOrNullStr body.shippingAddress).getD "No address provided" }).1 := by
  have hloop := createOrderItemsLoop_none_succeeds (a :: rest)
    (MemStorage.createOrder s
      { userId := u
        total := body.total
        status := some "pending"
        shippingAddress :=
          (jsOrNullStr body.shippingAddress).getD "No address provided" }).2
  have hrun : Routes.createOrderHandler s (some u) body none =
      (201, MemStorage.clearCart
        (Routes.createOrderItemsLoop
          (MemStorage.createOrder s
            { userId := u
              total := body.total
              status := some "pending"
              shippingAddress :=
                (jsOrNullStr body.shippingAddress).getD "No address provided" }).2
          (a :: rest) none).2 u) := by
    simp only [Routes.createOrderHandler, hc, List.isEmpty_cons, hloop]
    rfl
  have hsnd : (Routes.createOrderHandler s (some u) body none).2 =
      MemStorage.clearCart
        (Routes.createOrderItemsLoop
          (MemStorage.createOrder s
            { userId := u
              total := body.total
              status := some "pending"
              shippingAddress :=
                (jsOrNullStr body.shippingAddress).getD "No address provided" }).2
          (a :: rest) none).2 u := by
    rw [hrun]
  rw [hsnd]
  show mapGet (Routes.createOrderItemsLoop
      (MemStorage.createOrder s
        { userId := u
          total := body.total
          status := some "pending"
          shippingAddress :=
            (jsOrNullStr body.shippingAddress).getD "No address provided" }).2
      (a :: rest) none).2.orders s.currentOrderId = _
  rw [createOrderItemsLoop_orders]
  exact mapGet_mapSet_self _ _ _

/-- C9: the total on the cart page is subtotal plus 8% tax with no discount term
(no coupon enters the computation); the checkout page submits every order
with `discount: "0.00"` and `couponCode: null`; and on the success path the
order stored by the server carries discount `"0.00"` and no coupon code —
the `discountValue` of an applied coupon never reaches any total. -/
theorem coupon_never_affects_totals (items : List ClientCartItem)
    (u : Nat) (addr : String) (s : MemState) (body : Routes.OrderRequestBody)
    (hcart : MemStorage.getCartItems s u ≠ []) :
    CartPage.cartPageTotal items =
      CartPage.cartPageSubtotal items +
        CartPage.cartPageSubtotal items * (8 / 100) ∧
    (Checkout.checkoutOrderData u items addr).discount = "0.00" ∧
    (Checkout.checkoutOrderData u items addr).couponCode = none ∧
    (MemStorage.getOrder (Routes.createOrderHandler s (some u) body none).2
        s.currentOrderId).map Order.discount = some "0.00" ∧
    (MemStorage.getOrder (Routes.createOrderHandler s (some u) body none).2
        s.currentOrderId).map Order.couponCode = some none := by
  cases hc : MemStorage.getCartItems s u with
  | nil => exact absurd hc hcart
  | cons a rest =>
      have hord := createOrderHandler_success_getOrder s u body a rest hc
      refine ⟨?_, rfl, rfl, ?_, ?_⟩
      · rw [CartPage.cartPageTotal, CartPage.cartPageTax]
        norm_num
      · rw [hord]
        rfl
      · rw [hord]
        rfl

/-- Witness for C9: concrete run from the demo state. -/
theorem coupon_never_affects_totals_witness :
    (Checkout.checkoutOrderData 1 [saleItem] "addr").discount = "0.00" ∧
    (MemStorage.getOrder
        (Routes.createOrderHandler demoCartState (some 1)
          { shippingAddress := some "1 Main St", total := "10.00" } none).2
        demoCartState.currentOrderId).map Order.discount = some "0.00" := by
  have h := coupon_never_affects_totals [saleItem] 1 "addr" demoCartState
    { shippingAddress := some "1 Main St", total := "10.00" } (by decide)
  exact ⟨h.2.1, h.2.2.2.1⟩
